import Mathlib

/-!
Shallow embedding of the tenant-isolation, booking-overlap, room-status and
deletion logic of the DarManager backend (`src/backend`), together with
proofs about the specified properties of that logic.

Modelling conventions:
* Database rows are Lean structures and the store is a `DB` record of lists;
  `first()` is `List.find?`, `count()` is `List.length` of a `List.filter`,
  and the `order_by(created_at.desc())` clause is an insertion sort.
* Nullable SQL columns are `Option` fields; `sqlEq` is SQL equality on
  nullable columns (a `NULL` operand never compares equal, unlike the
  `Option` `BEq` instance).
* Calendar dates and timestamps are integers (day ordinals), and money
  amounts are integers; uuid generation and `date.today()` are explicit
  arguments, and server-side creation timestamps are abstracted to `0`.
* The file `src/backend/models.py` predates multi-tenancy: the tenancy
  columns (`tenant_id` on users, properties and guests, the `tenants`
  table, and the `super_admin` role) that `src/backend/tenant.py`,
  `src/backend/schemas.py` and the services reference are modelled from
  the persisted shape given in the specification.
* Handlers that raise `AppException` subclasses are embedded as functions
  into `Except AppError`; an error result carries no store, so state is
  unchanged whenever an operation fails.
* Descriptive payload columns that the embedded logic copies verbatim but
  never reads (addresses, phone numbers, notes, ...) are represented by the
  retained fields (`name`, `price_per_night`, ...) and otherwise omitted.
-/

namespace DarManager

/-- Roles of `UserRole` (`schemas.py`; the tenant-aware modules also use
`SUPER_ADMIN`, which the stale `models.py` enum lacks). -/
inductive UserRole where
  | super_admin
  | admin
  | manager
  | staff
deriving DecidableEq

/-- A row of the `users` table: `id`, `role`, and the nullable `tenant_id`. -/
structure User where
  id : String
  role : UserRole
  tenant_id : Option String
deriving DecidableEq

/-- A row of the `tenants` table. -/
structure Tenant where
  id : String
  name : String
  subdomain : String
  domain : Option String
  is_active : Bool
deriving DecidableEq

/-- A row of the `properties` table (descriptive columns elided). -/
structure Property where
  id : String
  tenant_id : String
  name : String
  price_per_night : Option Int
  max_guests : Int
deriving DecidableEq

/-- A row of the `rooms` table. -/
structure Room where
  id : String
  property_id : String
  name : String
  capacity : Int
  price_per_night : Option Int
  status : Option String
  keybox_code : Option String
  created_at : Int
  updated_at : Int
deriving DecidableEq

/-- A row of the `guests` table. -/
structure Guest where
  id : String
  tenant_id : String
  first_name : String
  last_name : String
  email : Option String
  phone : Option String
deriving DecidableEq

/-- A row of the `bookings` table. The service layer explicitly filters on
`property_id IS NOT NULL` and `guest_id IS NOT NULL`, so the store is
modelled as possibly holding rows where these references are absent. -/
structure Booking where
  id : String
  property_id : Option String
  room_id : Option String
  guest_id : Option String
  check_in_date : Int
  check_out_date : Int
  guests_count : Int
  total_amount : Option Int
  status : String
  created_at : Int
deriving DecidableEq

/-- The relational store. -/
structure DB where
  tenants : List Tenant
  users : List User
  properties : List Property
  rooms : List Room
  guests : List Guest
  bookings : List Booking
deriving DecidableEq

/-- Typed outcomes of the `AppException` hierarchy in
`app/core/exceptions.py`, plus the bare 400 `HTTPException` raised by the
creation guards. -/
inductive AppError where
  | notFound (resource identifier : String)
  | validationFailed (detail : String)
  | conflict (detail : String)
  | dependencyConflict (resource dependencies : String)
  | badRequest (detail : String)
deriving DecidableEq

deriving instance DecidableEq for Except

/-- SQL equality on nullable columns: a `NULL` operand never compares
equal, in particular `NULL = NULL` is not a match. -/
def sqlEq (a b : Option String) : Bool :=
  match a, b with
  | some x, some y => x == y
  | _, _ => false

/-- Translation of `get_user_tenant_id` (`tenant.py`): super admins have no
tenant; otherwise `str(user.tenant_id) if user.tenant_id else None`, where
Python truthiness sends the empty string to `None` as well. -/
def get_user_tenant_id (user : User) : Option String :=
  if user.role = UserRole.super_admin then
    none
  else
    match user.tenant_id with
    | some t => if t = "" then none else some t
    | none => none

/-- Translation of `validate_tenant_access` (`tenant.py`): a super admin
can access everything, anyone else exactly when `get_user_tenant_id`
equals the resource tenant id (`Option` equality, as in the Python `==`). -/
def validate_tenant_access (user : User) (tenant_id : Option String) : Bool :=
  if user.role = UserRole.super_admin then
    true
  else
    get_user_tenant_id user == tenant_id

/-- Request metadata consumed by the tenant resolver: the
`X-Tenant-Subdomain` header (if sent) and the `Host` header. -/
structure RequestMeta where
  x_tenant_subdomain : Option String
  host : String
deriving DecidableEq

/-- Boolean prefix test on character lists. -/
def takesPrefix : List Char → List Char → Bool
  | [], _ => true
  | _ :: _, [] => false
  | a :: as, b :: bs => a == b && takesPrefix as bs

/-- Characters of `s` before the first occurrence of `sep`, or `none` when
`sep` does not occur in `s`. -/
def beforeFirst (sep : List Char) : List Char → Option (List Char)
  | [] => if sep.isEmpty then some [] else none
  | c :: rest =>
    if takesPrefix sep (c :: rest) then some []
    else
      match beforeFirst sep rest with
      | some pre => some (c :: pre)
      | none => none

/-- Combined embedding of the Python `sep in s` test and `s.split(sep)[0]`:
the prefix of `s` before the first occurrence of `sep`, or `none` when
`sep` is not a substring of `s`. -/
def substrBefore (sep s : String) : Option String :=
  (beforeFirst sep.data s.data).map (fun cs => String.mk cs)

/-- Translation of `get_tenant_from_subdomain` (`tenant.py`): prefer the
`X-Tenant-Subdomain` header; else early-return `None` on the three literal
bare-localhost hosts; else take the prefix of the host before `.localhost`,
or failing that before `.darmanager.net`; an empty candidate resolves to
`None`, and otherwise the first active tenant with that subdomain is
returned. -/
def get_tenant_from_subdomain (req : RequestMeta) (db : DB) : Option Tenant :=
  let sub0 := req.x_tenant_subdomain.getD ""
  let sub : Option String :=
    if sub0 = "" then
      if req.host = "localhost" || req.host = "localhost:3000" || req.host = "localhost:80" then
        none
      else
        match substrBefore ".localhost" req.host with
        | some pre => some pre
        | none =>
          match substrBefore ".darmanager.net" req.host with
          | some pre => some pre
          | none => some ""
    else some sub0
  match sub with
  | none => none
  | some s =>
    if s = "" then none
    else db.tenants.find? (fun t => t.subdomain == s && t.is_active)

/-- Leftmost dot-separated label of a host fragment (the fragment itself
when it has no dot). -/
def leftmostLabel (s : String) : String :=
  (substrBefore "." s).getD s

/-- Modelled from the spec: the resolver exactly as claim C7 and spec
section 4.2 word it, with the subdomain candidate of a suffixed host being
the LEFTMOST LABEL after the `.localhost` or base-domain suffix is
stripped. Used only to compare the specified behavior against the
translated code. -/
def spec_resolve (req : RequestMeta) (db : DB) : Option Tenant :=
  let hostCand : Option String :=
    if req.host = "localhost" || req.host = "localhost:3000" || req.host = "localhost:80" then
      none
    else
      match substrBefore ".localhost" req.host with
      | some pre => if pre = "" then none else some (leftmostLabel pre)
      | none =>
        match substrBefore ".darmanager.net" req.host with
        | some pre => if pre = "" then none else some (leftmostLabel pre)
        | none => none
  let cand : Option String :=
    match req.x_tenant_subdomain with
    | some s => if s = "" then hostCand else some s
    | none => hostCand
  match cand with
  | none => none
  | some s => db.tenants.find? (fun t => t.subdomain == s && t.is_active)

/-- Modelled from the spec (amended after the counterexample): the
subdomain candidate the resolver derives from the request — the explicit
header when present and nonempty, no candidate for a bare-localhost host,
and otherwise the whole prefix of the host before the first occurrence of
the `.localhost` or `.darmanager.net` suffix (nonempty, else no
candidate). -/
def resolve_candidate (req : RequestMeta) : Option String :=
  let hostCand : Option String :=
    if req.host = "localhost" || req.host = "localhost:3000" || req.host = "localhost:80" then
      none
    else
      match substrBefore ".localhost" req.host with
      | some pre => if pre = "" then none else some pre
      | none =>
        match substrBefore ".darmanager.net" req.host with
        | some pre => if pre = "" then none else some pre
        | none => none
  match req.x_tenant_subdomain with
  | some s => if s = "" then hostCand else some s
  | none => hostCand

/-- Payload of `PropertyCreate` (`schemas.py`): deliberately carries no
`tenant_id` field — "Property creation without tenant_id (will be set by
backend)". -/
structure PropertyCreate where
  name : String
  price_per_night : Option Int
  max_guests : Int
deriving DecidableEq

/-- Payload of `GuestCreate` (`schemas.py`): deliberately carries no
`tenant_id` field — "Guest creation without tenant_id (will be set by
backend)". -/
structure GuestCreate where
  first_name : String
  last_name : String
  email : Option String
  phone : Option String
deriving DecidableEq

/-- Payload of `BookingCreate` (`schemas.py`). -/
structure BookingCreate where
  property_id : String
  room_id : Option String
  guest_id : String
  check_in_date : Int
  check_out_date : Int
  guests_count : Int
  total_amount : Option Int
  status : String
deriving DecidableEq

/-- Payload of `BookingUpdate` (`schemas.py`); `none` stands for a field
absent from the request (pydantic `exclude_unset`). -/
structure BookingUpdate where
  check_in_date : Option Int
  check_out_date : Option Int
  guests_count : Option Int
  total_amount : Option Int
  status : Option String
deriving DecidableEq

/-- Payload of `RoomUpdate` (`schemas.py`); `none` stands for a field
absent from the request (pydantic `exclude_unset`). -/
structure RoomUpdate where
  name : Option String
  capacity : Option Int
  price_per_night : Option Int
  status : Option String
  keybox_code : Option String
deriving DecidableEq

/-- Row constructed by `Property(**property_dict)` in
`PropertyService.create_property` after `property_dict["tenant_id"]` is
overwritten with the caller tenant. -/
def newPropertyRow (pd : PropertyCreate) (tid new_id : String) : Property :=
  { id := new_id
    tenant_id := tid
    name := pd.name
    price_per_night := pd.price_per_night
    max_guests := pd.max_guests }

/-- Translation of `PropertyService.create_property`
(`app/services/property_service.py`): a super admin (whose resolved tenant
is always `None`) and a tenantless user are rejected with 400; otherwise
the row is stored with `tenant_id` forced to the caller tenant. -/
def create_property (db : DB) (pd : PropertyCreate) (user : User) (new_id : String) :
    Except AppError (DB × Property) :=
  match get_user_tenant_id user with
  | none =>
    if user.role = UserRole.super_admin then
      .error (.badRequest "Super admin must use tenant-specific endpoints to create properties")
    else
      .error (.badRequest "User must be associated with a tenant to create properties")
  | some tid =>
    let row := newPropertyRow pd tid new_id
    .ok ({ db with properties := db.properties ++ [row] }, row)

/-- Row constructed by `Guest(**guest_dict)` in `GuestService.create_guest`
after `guest_dict["tenant_id"]` is overwritten with the caller tenant. -/
def newGuestRow (gd : GuestCreate) (tid new_id : String) : Guest :=
  { id := new_id
    tenant_id := tid
    first_name := gd.first_name
    last_name := gd.last_name
    email := gd.email
    phone := gd.phone }

/-- Translation of `GuestService.create_guest`
(`app/services/guest_service.py`). -/
def create_guest (db : DB) (gd : GuestCreate) (user : User) (new_id : String) :
    Except AppError (DB × Guest) :=
  match get_user_tenant_id user with
  | none =>
    if user.role = UserRole.super_admin then
      .error (.badRequest "Super admin must use tenant-specific endpoints to create guests")
    else
      .error (.badRequest "User must be associated with a tenant to create guests")
  | some tid =>
    let row := newGuestRow gd tid new_id
    .ok ({ db with guests := db.guests ++ [row] }, row)

/-- Translation of `GuestService.get_guest_with_validation`. -/
def get_guest_with_validation (db : DB) (guest_id : String) (user : User) : Option Guest :=
  match db.guests.find? (fun g => g.id == guest_id) with
  | none => none
  | some g => if validate_tenant_access user (some g.tenant_id) then some g else none

/-- Translation of `GuestService.delete_guest`: inaccessible or missing
guests yield `False`; a guest with dependent bookings raises
`DependencyConflictError`; otherwise the row is removed and `True`
returned. -/
def delete_guest (db : DB) (guest_id : String) (user : User) : Except AppError (DB × Bool) :=
  match get_guest_with_validation db guest_id user with
  | none => .ok (db, false)
  | some g =>
    let booking_count := (db.bookings.filter (fun b => sqlEq b.guest_id (some guest_id))).length
    if 0 < booking_count then
      .error (.dependencyConflict ("guest \x27" ++ g.first_name ++ " " ++ g.last_name ++ "\x27")
        (toString booking_count ++ " booking(s)"))
    else
      .ok ({ db with guests := db.guests.filter (fun x => !(x.id == guest_id)) }, true)

/-- Translation of `BookingService.get_booking_with_validation`. -/
def get_booking_with_validation (db : DB) (booking_id : String) (user : User) : Option Booking :=
  match db.bookings.find? (fun b => b.id == booking_id) with
  | none => none
  | some bk =>
    if user.role = UserRole.super_admin then some bk
    else
      match get_user_tenant_id user with
      | none => none
      | some tid =>
        match db.properties.find? (fun p => sqlEq (some p.id) bk.property_id) with
        | none => none
        | some p => if p.tenant_id = tid then some bk else none

/-- Translation of `BookingService.create_booking`: property and guest
existence and tenant checks, then the date-order validation, then the
overlapping-bookings query, then the insert. -/
def create_booking (db : DB) (bd : BookingCreate) (user : User) (new_id : String) :
    Except AppError (DB × Booking) :=
  match db.properties.find? (fun p => p.id == bd.property_id) with
  | none => .error (.notFound "Property" bd.property_id)
  | some property_exists =>
    if !(validate_tenant_access user (some property_exists.tenant_id)) then
      .error (.notFound "Property" bd.property_id)
    else
      match db.guests.find? (fun g => g.id == bd.guest_id) with
      | none => .error (.notFound "Guest" bd.guest_id)
      | some guest_exists =>
        if !(validate_tenant_access user (some guest_exists.tenant_id)) then
          .error (.notFound "Guest" bd.guest_id)
        else if decide (bd.check_out_date ≤ bd.check_in_date) then
          .error (.validationFailed "Check-out date must be after check-in date")
        else
          match db.bookings.find? (fun b =>
              sqlEq b.property_id (some bd.property_id) &&
              (b.status == "pending" || b.status == "confirmed" || b.status == "checked_in") &&
              decide (bd.check_in_date < b.check_out_date) &&
              decide (b.check_in_date < bd.check_out_date)) with
          | some ob =>
            .error (.conflict ("Property is already booked from " ++ toString ob.check_in_date ++
              " to " ++ toString ob.check_out_date))
          | none =>
            let row : Booking :=
              { id := new_id
                property_id := some bd.property_id
                room_id := bd.room_id
                guest_id := some bd.guest_id
                check_in_date := bd.check_in_date
                check_out_date := bd.check_out_date
                guests_count := bd.guests_count
                total_amount := bd.total_amount
                status := bd.status
                created_at := 0 }
            .ok ({ db with bookings := db.bookings ++ [row] }, row)

/-- Booking row after the `setattr` loop of `BookingService.update_booking`
applies the supplied fields. -/
def applyBookingUpdate (bk : Booking) (bu : BookingUpdate) : Booking :=
  { bk with
    check_in_date := bu.check_in_date.getD bk.check_in_date
    check_out_date := bu.check_out_date.getD bk.check_out_date
    guests_count := bu.guests_count.getD bk.guests_count
    total_amount :=
      match bu.total_amount with
      | some v => some v
      | none => bk.total_amount
    status := bu.status.getD bk.status }

/-- Translation of `BookingService.update_booking`: `none` is returned for
a missing or inaccessible booking; when either date field is supplied the
date-order validation and the overlapping-bookings query (excluding the
booking itself) run before the fields are applied. -/
def update_booking (db : DB) (booking_id : String) (bu : BookingUpdate) (user : User) :
    Except AppError (Option (DB × Booking)) :=
  match get_booking_with_validation db booking_id user with
  | none => .ok none
  | some bk =>
    let check_in := bu.check_in_date.getD bk.check_in_date
    let check_out := bu.check_out_date.getD bk.check_out_date
    let committed : DB × Booking :=
      ({ db with bookings := db.bookings.map (fun x =>
          if x.id == booking_id then applyBookingUpdate bk bu else x) },
        applyBookingUpdate bk bu)
    if bu.check_in_date.isSome || bu.check_out_date.isSome then
      if decide (check_out ≤ check_in) then
        .error (.validationFailed "Check-out date must be after check-in date")
      else
        match db.bookings.find? (fun b =>
            sqlEq b.property_id bk.property_id &&
            !(b.id == booking_id) &&
            (b.status == "pending" || b.status == "confirmed" || b.status == "checked_in") &&
            decide (check_in < b.check_out_date) &&
            decide (b.check_in_date < check_out)) with
        | some ob =>
          .error (.conflict ("Property is already booked from " ++ toString ob.check_in_date ++
            " to " ++ toString ob.check_out_date))
        | none => .ok (some committed)
    else .ok (some committed)

/-- Insertion step of the `order_by(Booking.created_at.desc())` clause. -/
def insertByCreatedDesc (b : Booking) : List Booking → List Booking
  | [] => [b]
  | x :: xs =>
    if x.created_at ≤ b.created_at then b :: x :: xs
    else x :: insertByCreatedDesc b xs

/-- Sort of the `order_by(Booking.created_at.desc())` clause. -/
def sortByCreatedDesc (l : List Booking) : List Booking :=
  l.foldr insertByCreatedDesc []

/-- Translation of `BookingService.get_bookings_for_user`: rows with a
`NULL` property or guest reference are filtered out, a super admin sees
every remaining row, other users see the rows of their tenant (none if
they have no tenant), and the optional guest and property filters are
applied before ordering. The inner join on the `properties` primary key is
modelled as an existence filter. -/
def get_bookings_for_user (db : DB) (user : User) (guest_id property_id : Option String) :
    List Booking :=
  let base := db.bookings.filter (fun b => b.property_id.isSome && b.guest_id.isSome)
  let scopedRows : Option (List Booking) :=
    if user.role = UserRole.super_admin then
      some base
    else
      match get_user_tenant_id user with
      | none => none
      | some tid =>
        some (base.filter (fun b =>
          db.properties.any (fun p => sqlEq b.property_id (some p.id) && p.tenant_id == tid)))
  match scopedRows with
  | none => []
  | some q =>
    let q1 :=
      match guest_id with
      | some gid => q.filter (fun b => sqlEq b.guest_id (some gid))
      | none => q
    let q2 :=
      match property_id with
      | some pid => q1.filter (fun b => sqlEq b.property_id (some pid))
      | none => q1
    sortByCreatedDesc q2

/-- Response shape `RoomWithStatus` (`schemas.py`): the stored row with the
calculated status substituted in. -/
structure RoomWithStatus where
  id : String
  property_id : String
  name : String
  capacity : Int
  price_per_night : Option Int
  status : String
  keybox_code : Option String
  created_at : Int
  updated_at : Int
deriving DecidableEq

/-- Tail of `calculate_room_status` after the active-booking query: the
checkout-today query and the stored-status fallback. (In the Python
source this code follows the first `if` block inline; it is reachable with
a found active booking only for a status outside the queried set, which
the query itself rules out.) -/
def restOfCalculateRoomStatus (room : Room) (db : DB) (today : Int) : String :=
  match db.bookings.find? (fun b =>
      sqlEq b.property_id (some room.property_id) &&
      (b.status == "confirmed" || b.status == "checked_in") &&
      decide (b.check_out_date = today)) with
  | some _ => "cleaning"
  | none =>
    match room.status with
    | some s => if s = "" then "available" else s
    | none => "available"

/-- Translation of `calculate_room_status`
(`app/api/v1/endpoints/rooms.py`); `today` stands for the `date.today()`
read at entry. The first query looks for a confirmed or checked-in booking
of the room property covering today; the second for one checking out
today; else the stored status is used, with Python `or` sending both
`None` and the empty string to `"available"`. -/
def calculate_room_status (room : Room) (db : DB) (today : Int) : String :=
  match db.bookings.find? (fun b =>
      sqlEq b.property_id (some room.property_id) &&
      (b.status == "confirmed" || b.status == "checked_in") &&
      decide (b.check_in_date ≤ today) &&
      decide (b.check_out_date > today)) with
  | some active_booking =>
    if active_booking.status == "checked_in" then "occupied"
    else if active_booking.status == "confirmed" then "occupied"
    else restOfCalculateRoomStatus room db today
  | none => restOfCalculateRoomStatus room db today

/-- Translation of the `get_room` endpoint
(`app/api/v1/endpoints/rooms.py`): look the room up, 404 when absent, and
return it with the calculated status; `current_user` is received from the
authentication dependency but never consulted. -/
def get_room (db : DB) (today : Int) (room_id : String) (_current_user : User) :
    Except AppError RoomWithStatus :=
  match db.rooms.find? (fun r => r.id == room_id) with
  | none => .error (.notFound "Room" room_id)
  | some db_room =>
    .ok
      { id := db_room.id
        property_id := db_room.property_id
        name := db_room.name
        capacity := db_room.capacity
        price_per_night := db_room.price_per_night
        status := calculate_room_status db_room db today
        keybox_code := db_room.keybox_code
        created_at := db_room.created_at
        updated_at := db_room.updated_at }

/-- Room row after the `setattr` loop of the `update_room` endpoint
applies the supplied fields. -/
def applyRoomUpdate (r : Room) (ru : RoomUpdate) : Room :=
  { r with
    name := ru.name.getD r.name
    capacity := ru.capacity.getD r.capacity
    price_per_night :=
      match ru.price_per_night with
      | some v => some v
      | none => r.price_per_night
    status :=
      match ru.status with
      | some s => some s
      | none => r.status
    keybox_code :=
      match ru.keybox_code with
      | some k => some k
      | none => r.keybox_code }

/-- Translation of the `update_room` endpoint
(`app/api/v1/endpoints/rooms.py`); `current_user` is never consulted. -/
def update_room (db : DB) (room_id : String) (ru : RoomUpdate) (_current_user : User) :
    Except AppError (DB × Room) :=
  match db.rooms.find? (fun r => r.id == room_id) with
  | none => .error (.notFound "Room" room_id)
  | some db_room =>
    let row := applyRoomUpdate db_room ru
    .ok ({ db with rooms := db.rooms.map (fun x => if x.id == room_id then row else x) }, row)

/-- Translation of the `delete_room` endpoint
(`app/api/v1/endpoints/rooms.py`): 404 when absent, dependency conflict
when bookings reference the room, else delete; `current_user` is never
consulted. -/
def delete_room (db : DB) (room_id : String) (_current_user : User) : Except AppError DB :=
  match db.rooms.find? (fun r => r.id == room_id) with
  | none => .error (.notFound "Room" room_id)
  | some db_room =>
    let booking_count := (db.bookings.filter (fun b => sqlEq b.room_id (some room_id))).length
    if 0 < booking_count then
      .error (.dependencyConflict ("room \x27" ++ db_room.name ++ "\x27")
        (toString booking_count ++ " booking(s)"))
    else
      .ok { db with rooms := db.rooms.filter (fun x => !(x.id == room_id)) }

/-- Audit counts returned by the `delete_tenant` endpoint. -/
structure DeletedCounts where
  users : Nat
  properties : Nat
  guests : Nat
  bookings : Nat
deriving DecidableEq

/-- Pair count of the raw SQL
`SELECT COUNT(*) FROM bookings b JOIN properties p ON b.property_id = p.id
WHERE p.tenant_id = :tenant_id` in the `delete_tenant` endpoint. -/
def bookingJoinCount (db : DB) (tenant_id : String) : Nat :=
  (db.bookings.map (fun b =>
    (db.properties.filter (fun p =>
      sqlEq b.property_id (some p.id) && p.tenant_id == tenant_id)).length)).sum

/-- Rows removed by the cascade when tenant `tenant_id` is deleted.
Modelled from the spec: the raw `DELETE FROM tenants WHERE id = ...` in
the `delete_tenant` endpoint (`app/api/v1/endpoints/tenants.py`) relies on
database-level cascading not present under `src/` (the stale `models.py`
predates tenancy); per spec section 4.6 the deletion cascades to every
row owned by the tenant: its users, properties and guests, and the
bookings of those properties. -/
def cascadeDeleteTenantRows (db : DB) (tenant_id : String) : DB :=
  { db with
    tenants := db.tenants.filter (fun t => !(t.id == tenant_id))
    users := db.users.filter (fun u => !(sqlEq u.tenant_id (some tenant_id)))
    properties := db.properties.filter (fun p => !(p.tenant_id == tenant_id))
    guests := db.guests.filter (fun g => !(g.tenant_id == tenant_id))
    bookings := db.bookings.filter (fun b =>
      !(db.properties.any (fun p => sqlEq b.property_id (some p.id) && p.tenant_id == tenant_id))) }

/-- Translation of the `delete_tenant` endpoint
(`app/api/v1/endpoints/tenants.py`): 404 when the tenant is absent, else
count the owned users, properties and guests and the bookings of the owned
properties, delete with cascade (see `cascadeDeleteTenantRows`), and
return the counts. -/
def delete_tenant (db : DB) (tenant_id : String) : Except AppError (DB × DeletedCounts) :=
  match db.tenants.find? (fun t => t.id == tenant_id) with
  | none => .error (.notFound "Tenant" tenant_id)
  | some _ =>
    let user_count := (db.users.filter (fun u => sqlEq u.tenant_id (some tenant_id))).length
    let property_count := (db.properties.filter (fun p => p.tenant_id == tenant_id)).length
    let guest_count := (db.guests.filter (fun g => g.tenant_id == tenant_id)).length
    let booking_count := bookingJoinCount db tenant_id
    .ok (cascadeDeleteTenantRows db tenant_id,
      { users := user_count
        properties := property_count
        guests := guest_count
        bookings := booking_count })

/-- Conflict recognizer: whether an operation outcome is the 409
`ConflictError`. -/
def isConflict {α : Type} : Except AppError α → Bool
  | .error (.conflict _) => true
  | _ => false

/-- Claim-side blocking predicate of spec section 4.4: a booking of the
given property whose status is in the blocking set
`pending / confirmed / checked_in` and whose half-open stay interval
overlaps the proposed `[a1, a2)`. -/
def blocksProposed (pid : Option String) (a1 a2 : Int) (b : Booking) : Bool :=
  sqlEq b.property_id pid &&
  (b.status == "pending" || b.status == "confirmed" || b.status == "checked_in") &&
  decide (a1 < b.check_out_date) &&
  decide (b.check_in_date < a2)

/-- Sample tenant used by the concrete instantiations below. -/
def egTenant : Tenant :=
  { id := "t1", name := "Acme Stays", subdomain := "acme", domain := none, is_active := true }

/-- Sample staff user of tenant `t1`. -/
def egUser : User := { id := "u1", role := UserRole.admin, tenant_id := some "t1" }

/-- Sample user of another tenant `t2`. -/
def egOutsider : User := { id := "u9", role := UserRole.admin, tenant_id := some "t2" }

/-- Sample user with no tenant. -/
def egTenantless : User := { id := "u0", role := UserRole.manager, tenant_id := none }

/-- Sample super admin. -/
def egSuperAdmin : User := { id := "sa", role := UserRole.super_admin, tenant_id := some "t1" }

/-- Sample property of tenant `t1`. -/
def egProperty : Property :=
  { id := "p1", tenant_id := "t1", name := "Villa Mar", price_per_night := some 100, max_guests := 4 }

/-- Sample room of property `p1`. -/
def egRoom : Room :=
  { id := "r1", property_id := "p1", name := "Room 1", capacity := 2,
    price_per_night := some 50, status := none, keybox_code := none,
    created_at := 0, updated_at := 0 }

/-- Sample guest of tenant `t1`. -/
def egGuest : Guest :=
  { id := "g1", tenant_id := "t1", first_name := "Amal", last_name := "Karam",
    email := none, phone := none }

/-- Sample confirmed booking of property `p1`, staying `[10, 15)`. -/
def egBooking : Booking :=
  { id := "b1", property_id := some "p1", room_id := none, guest_id := some "g1",
    check_in_date := 10, check_out_date := 15, guests_count := 2,
    total_amount := some 500, status := "confirmed", created_at := 1 }

/-- Sample pending booking of property `p1`, staying `[20, 25)`. -/
def egBooking2 : Booking :=
  { id := "b2", property_id := some "p1", room_id := none, guest_id := some "g1",
    check_in_date := 20, check_out_date := 25, guests_count := 2,
    total_amount := none, status := "pending", created_at := 2 }

/-- Sample store for the concrete instantiations. -/
def egDb : DB :=
  { tenants := [egTenant], users := [egUser], properties := [egProperty],
    rooms := [egRoom], guests := [egGuest], bookings := [egBooking, egBooking2] }

/-- Sample store with the bookings removed (guest `g1` has no dependents). -/
def egDbNoBookings : DB := { egDb with bookings := [] }

/-- Proposed creation payload overlapping `egBooking` (days 14 to 18). -/
def egOverlapCreate : BookingCreate :=
  { property_id := "p1", room_id := none, guest_id := "g1",
    check_in_date := 14, check_out_date := 18, guests_count := 2,
    total_amount := none, status := "pending" }

/-- Proposed creation payload with an empty stay (days 18 to 18). -/
def egEmptyStayCreate : BookingCreate :=
  { property_id := "p1", room_id := none, guest_id := "g1",
    check_in_date := 18, check_out_date := 18, guests_count := 2,
    total_amount := none, status := "pending" }

/-- Update moving booking `b1` into `[21, 22)`, overlapping `egBooking2`. -/
def egOverlapUpdate : BookingUpdate :=
  { check_in_date := some 21, check_out_date := some 22,
    guests_count := none, total_amount := none, status := none }

/-- Update moving booking `b1` into the empty stay `[30, 30)`. -/
def egEmptyStayUpdate : BookingUpdate :=
  { check_in_date := some 30, check_out_date := some 30,
    guests_count := none, total_amount := none, status := none }

/-- Tenant of the cascade-deletion scenario. -/
def c4Tenant : Tenant :=
  { id := "T", name := "Cedar Homes", subdomain := "cedar", domain := none, is_active := true }

/-- Users of the cascade-deletion scenario. -/
def c4User (n : Nat) : User :=
  { id := "cu" ++ toString n, role := UserRole.staff, tenant_id := some "T" }

/-- Guests of the cascade-deletion scenario. -/
def c4Guest (n : Nat) : Guest :=
  { id := "cg" ++ toString n, tenant_id := "T", first_name := "G", last_name := toString n,
    email := none, phone := none }

/-- Bookings of the cascade-deletion scenario, all on property `P1`. -/
def c4Booking (n : Nat) : Booking :=
  { id := "cb" ++ toString n, property_id := some "P1", room_id := none,
    guest_id := some "cg0", check_in_date := Int.ofNat (10 * n),
    check_out_date := Int.ofNat (10 * n + 5), guests_count := 1,
    total_amount := some 100, status := "confirmed", created_at := Int.ofNat n }

/-- Store of the cascade-deletion scenario: tenant `T` owns 2 users, 1
property, 4 guests and 10 bookings (via that property). -/
def c4Property : Property :=
  { id := "P1", tenant_id := "T", name := "Chalet", price_per_night := some 80, max_guests := 6 }

/-- Store of the cascade-deletion scenario (continued). -/
def c4Db : DB :=
  { tenants := [c4Tenant]
    users := (List.range 2).map c4User
    properties := [c4Property]
    rooms := []
    guests := (List.range 4).map c4Guest
    bookings := (List.range 10).map c4Booking }

/-- Tenant with subdomain `a` for the resolver counterexample. -/
def c7Tenant : Tenant :=
  { id := "ta", name := "A Corp", subdomain := "a", domain := none, is_active := true }

/-- Store for the resolver counterexample. -/
def c7Db : DB :=
  { tenants := [c7Tenant], users := [], properties := [], rooms := [],
    guests := [], bookings := [] }

/-- Property creation payload for the forced-tenant instantiation. -/
def egPropertyCreate : PropertyCreate :=
  { name := "New Villa", price_per_night := some 120, max_guests := 5 }

/-- Guest creation payload for the forced-tenant instantiation. -/
def egGuestCreate : GuestCreate :=
  { first_name := "Nadia", last_name := "Haddad", email := none, phone := some "555" }

theorem any_eq_find_q_isSome {α : Type} (p : α → Bool) (l : List α) :
    l.any p = (l.find? p).isSome := by
  cases h : l.find? p with
  | none =>
    rw [List.find?_eq_none] at h
    simp only [Option.isSome_none, List.any_eq_false]
    intro x hx
    simpa using h x hx
  | some b =>
    simp only [Option.isSome_some]
    rw [List.any_eq_true]
    exact ⟨b, List.mem_of_find?_eq_some h, List.find?_some h⟩

theorem mem_insertByCreatedDesc {b x : Booking} {l : List Booking} :
    x ∈ insertByCreatedDesc b l ↔ x = b ∨ x ∈ l := by
  induction l with
  | nil => simp [insertByCreatedDesc]
  | cons y ys ih =>
    by_cases h : y.created_at ≤ b.created_at
    · simp [insertByCreatedDesc, h]
    · simp [insertByCreatedDesc, h, ih]
      tauto

theorem mem_sortByCreatedDesc {x : Booking} {l : List Booking} :
    x ∈ sortByCreatedDesc l ↔ x ∈ l := by
  induction l with
  | nil => simp [sortByCreatedDesc]
  | cons y ys ih =>
    simp only [sortByCreatedDesc, List.foldr] at *
    rw [mem_insertByCreatedDesc, ih]
    simp

/-- C1: evaluation of the authorization gate at the failing input of the
claim: for a non-super-admin user with no tenant and a resource tenant id
that is absent, `validate_tenant_access` compares `None == None` and
returns `true`, where the specification demands that absence never match
(the claim requires `false` in particular when both sides are absent). -/
theorem validate_tenant_access_matches_double_absence :
    validate_tenant_access { id := "u1", role := UserRole.admin, tenant_id := none } none = true :=
  rfl

/-- C3: for every room, store and value of today, the derived room status
is `occupied` when some confirmed or checked-in booking of the room
property covers today (`check_in_date <= today < check_out_date`);
otherwise `cleaning` when some confirmed or checked-in booking of the
property checks out today; otherwise the stored manual status, defaulting
to `available` when unset — in particular `maintenance` and
`out_of_order` can only ever come from the stored fallback. -/
theorem room_status_priority (room : Room) (db : DB) (today : Int) :
    calculate_room_status room db today =
      if db.bookings.any (fun b =>
          sqlEq b.property_id (some room.property_id) &&
          (b.status == "confirmed" || b.status == "checked_in") &&
          decide (b.check_in_date ≤ today) &&
          decide (b.check_out_date > today)) then
        "occupied"
      else if db.bookings.any (fun b =>
          sqlEq b.property_id (some room.property_id) &&
          (b.status == "confirmed" || b.status == "checked_in") &&
          decide (b.check_out_date = today)) then
        "cleaning"
      else
        match room.status with
        | some s => if s = "" then "available" else s
        | none => "available" := by
  rw [any_eq_find_q_isSome, any_eq_find_q_isSome]
  cases h1 : db.bookings.find? (fun b =>
      sqlEq b.property_id (some room.property_id) &&
      (b.status == "confirmed" || b.status == "checked_in") &&
      decide (b.check_in_date ≤ today) &&
      decide (b.check_out_date > today)) with
  | some active_booking =>
    have hpred := List.find?_some h1
    simp only [Bool.and_eq_true, Bool.or_eq_true, beq_iff_eq] at hpred
    have lhs : calculate_room_status room db today =
        if active_booking.status == "checked_in" then "occupied"
        else if active_booking.status == "confirmed" then "occupied"
        else restOfCalculateRoomStatus room db today := by
      unfold calculate_room_status
      rw [h1]
    rw [lhs]
    simp only [Option.isSome_some, if_pos]
    rcases hpred with ⟨⟨⟨-, hstat⟩, -⟩, -⟩
    rcases hstat with hconf | hchk
    · rw [hconf]
      rfl
    · rw [hchk]
      rfl
  | none =>
    have lhs : calculate_room_status room db today = restOfCalculateRoomStatus room db today := by
      unfold calculate_room_status
      rw [h1]
    rw [lhs]
    simp only [Option.isSome_none, Bool.false_eq_true, if_false]
    unfold restOfCalculateRoomStatus
    cases h2 : db.bookings.find? (fun b =>
        sqlEq b.property_id (some room.property_id) &&
        (b.status == "confirmed" || b.status == "checked_in") &&
        decide (b.check_out_date = today)) with
    | some _ => rfl
    | none => rfl

/-- C9: the room endpoints perform no tenant scoping: for any store, any
room id, any update payload and any two authenticated callers — of any
role and any tenant — `get_room`, `update_room` and `delete_room` return
identical outcomes for both callers. -/
theorem room_endpoints_no_tenant_scope :
    ∀ (db : DB) (today : Int) (room_id : String) (ru : RoomUpdate) (u1 u2 : User),
      get_room db today room_id u1 = get_room db today room_id u2 ∧
      update_room db room_id ru u1 = update_room db room_id ru u2 ∧
      delete_room db room_id u1 = delete_room db room_id u2 :=
  fun _ _ _ _ _ _ => ⟨rfl, rfl, rfl⟩

/-- C10: for every user (super admins included) and every filter choice,
`get_bookings_for_user` never returns a booking whose property reference
or guest reference is absent: every listed row has both references
present, even when orphan rows exist in the store. -/
theorem bookings_listing_hides_orphans :
    ∀ (db : DB) (user : User) (guest_id property_id : Option String),
      (get_bookings_for_user db user guest_id property_id).all
        (fun b => b.property_id.isSome && b.guest_id.isSome) = true := by
  intro db user guest_id property_id
  rw [List.all_eq_true]
  intro b hb
  unfold get_bookings_for_user at hb
  by_cases hrole : user.role = UserRole.super_admin
  · simp only [hrole, if_true, if_pos] at hb
    cases guest_id with
    | none =>
      cases property_id with
      | none =>
        rw [mem_sortByCreatedDesc] at hb
        exact (List.mem_filter.mp hb).2
      | some pid =>
        rw [mem_sortByCreatedDesc] at hb
        exact (List.mem_filter.mp (List.mem_filter.mp hb).1).2
    | some gid =>
      cases property_id with
      | none =>
        rw [mem_sortByCreatedDesc] at hb
        exact (List.mem_filter.mp (List.mem_filter.mp hb).1).2
      | some pid =>
        rw [mem_sortByCreatedDesc] at hb
        exact (List.mem_filter.mp (List.mem_filter.mp (List.mem_filter.mp hb).1).1).2
  · simp only [hrole, if_false, if_neg] at hb
    cases htid : get_user_tenant_id user with
    | none =>
      rw [htid] at hb
      simp at hb
    | some tid =>
      rw [htid] at hb
      cases guest_id with
      | none =>
        cases property_id with
        | none =>
          rw [mem_sortByCreatedDesc] at hb
          exact (List.mem_filter.mp (List.mem_filter.mp hb).1).2
        | some pid =>
          rw [mem_sortByCreatedDesc] at hb
          exact (List.mem_filter.mp (List.mem_filter.mp (List.mem_filter.mp hb).1).1).2
      | some gid =>
        cases property_id with
        | none =>
          rw [mem_sortByCreatedDesc] at hb
          exact (List.mem_filter.mp (List.mem_filter.mp (List.mem_filter.mp hb).1).1).2
        | some pid =>
          rw [mem_sortByCreatedDesc] at hb
          exact (List.mem_filter.mp (List.mem_filter.mp (List.mem_filter.mp
            (List.mem_filter.mp hb).1).1).1).2

/-- C2: for every booking creation, and every booking update that changes
a date field, with proposed half-open stay `[a1, a2)` where `a1 < a2` (and
with the property, guest and access preconditions met), the operation
yields the 409 Conflict exactly when some other booking of the same
property — excluding the booking being updated — has status `pending`,
`confirmed` or `checked_in` and an interval `[b1, b2)` with `a1 < b2` and
`b1 < a2`; checked-out and cancelled bookings never block, and adjacent
intervals do not conflict. -/
theorem booking_conflict_iff_overlap :
    (∀ (db : DB) (bd : BookingCreate) (user : User) (new_id : String)
        (p : Property) (g : Guest),
      db.properties.find? (fun q => q.id == bd.property_id) = some p →
      validate_tenant_access user (some p.tenant_id) = true →
      db.guests.find? (fun q => q.id == bd.guest_id) = some g →
      validate_tenant_access user (some g.tenant_id) = true →
      bd.check_in_date < bd.check_out_date →
      isConflict (create_booking db bd user new_id) =
        db.bookings.any
          (blocksProposed (some bd.property_id) bd.check_in_date bd.check_out_date))
    ∧
    (∀ (db : DB) (booking_id : String) (bu : BookingUpdate) (user : User) (bk : Booking),
      get_booking_with_validation db booking_id user = some bk →
      ((∃ d, bu.check_in_date = some d ∧ d ≠ bk.check_in_date) ∨
        (∃ d, bu.check_out_date = some d ∧ d ≠ bk.check_out_date)) →
      bu.check_in_date.getD bk.check_in_date < bu.check_out_date.getD bk.check_out_date →
      isConflict (update_booking db booking_id bu user) =
        db.bookings.any (fun b =>
          !(b.id == booking_id) &&
          blocksProposed bk.property_id (bu.check_in_date.getD bk.check_in_date)
            (bu.check_out_date.getD bk.check_out_date) b)) := by
  constructor
  · intro db bd user new_id p g hp hap hg hag hd
    have hdec : decide (bd.check_out_date ≤ bd.check_in_date) = false :=
      decide_eq_false (not_le.mpr hd)
    unfold create_booking
    simp only [hp, hap, hg, hag, Bool.not_true, Bool.false_eq_true, if_false, hdec]
    have hfun : (fun b =>
        sqlEq b.property_id (some bd.property_id) &&
        (b.status == "pending" || b.status == "confirmed" || b.status == "checked_in") &&
        decide (bd.check_in_date < b.check_out_date) &&
        decide (b.check_in_date < bd.check_out_date)) =
        blocksProposed (some bd.property_id) bd.check_in_date bd.check_out_date := rfl
    rw [hfun, any_eq_find_q_isSome]
    cases h : db.bookings.find?
        (blocksProposed (some bd.property_id) bd.check_in_date bd.check_out_date) with
    | some ob => rfl
    | none => rfl
  · intro db booking_id bu user bk hbk hch hd
    have hsupp : (bu.check_in_date.isSome || bu.check_out_date.isSome) = true := by
      rcases hch with ⟨d, hd1, -⟩ | ⟨d, hd1, -⟩
      · simp [hd1]
      · simp [hd1]
    have hdec : decide (bu.check_out_date.getD bk.check_out_date ≤
        bu.check_in_date.getD bk.check_in_date) = false :=
      decide_eq_false (not_le.mpr hd)
    unfold update_booking
    simp only [hbk, hsupp, if_true, hdec, Bool.false_eq_true, if_false]
    have hfun : (fun b =>
        sqlEq b.property_id bk.property_id &&
        !(b.id == booking_id) &&
        (b.status == "pending" || b.status == "confirmed" || b.status == "checked_in") &&
        decide (bu.check_in_date.getD bk.check_in_date < b.check_out_date) &&
        decide (b.check_in_date < bu.check_out_date.getD bk.check_out_date)) =
        (fun b =>
          !(b.id == booking_id) &&
          blocksProposed bk.property_id (bu.check_in_date.getD bk.check_in_date)
            (bu.check_out_date.getD bk.check_out_date) b) := by
      funext b
      unfold blocksProposed
      cases sqlEq b.property_id bk.property_id <;>
        cases b.id == booking_id <;>
          cases (b.status == "pending" || b.status == "confirmed" || b.status == "checked_in") <;>
            cases decide (bu.check_in_date.getD bk.check_in_date < b.check_out_date) <;>
              cases decide (b.check_in_date < bu.check_out_date.getD bk.check_out_date) <;>
                rfl
    rw [hfun, any_eq_find_q_isSome]
    cases h : db.bookings.find? (fun b =>
        !(b.id == booking_id) &&
        blocksProposed bk.property_id (bu.check_in_date.getD bk.check_in_date)
          (bu.check_out_date.getD bk.check_out_date) b) with
    | some ob => rfl
    | none => rfl

theorem booking_conflict_iff_overlap_witness :
    isConflict (create_booking egDb egOverlapCreate egUser "nb1") = true ∧
    isConflict (update_booking egDb "b1" egOverlapUpdate egUser) = true :=
  ⟨(booking_conflict_iff_overlap.1 egDb egOverlapCreate egUser "nb1" egProperty egGuest
      rfl rfl rfl rfl (by decide)).trans (by decide),
   (booking_conflict_iff_overlap.2 egDb "b1" egOverlapUpdate egUser egBooking
      rfl (Or.inl ⟨21, rfl, by decide⟩) (by decide)).trans (by decide)⟩

/-- C6: for every booking creation, and every booking update that supplies
a date field (with the property, guest and access preconditions met), a
resulting check-in date that is not strictly before the resulting
check-out date fails with the 422 ValidationError — never the 409
Conflict, whatever bookings exist — and, the outcome being an error, no
booking is written; the date-order check runs separately from and before
the overlap query. -/
theorem booking_date_order_validation :
    (∀ (db : DB) (bd : BookingCreate) (user : User) (new_id : String)
        (p : Property) (g : Guest),
      db.properties.find? (fun q => q.id == bd.property_id) = some p →
      validate_tenant_access user (some p.tenant_id) = true →
      db.guests.find? (fun q => q.id == bd.guest_id) = some g →
      validate_tenant_access user (some g.tenant_id) = true →
      bd.check_out_date ≤ bd.check_in_date →
      create_booking db bd user new_id =
        .error (.validationFailed "Check-out date must be after check-in date"))
    ∧
    (∀ (db : DB) (booking_id : String) (bu : BookingUpdate) (user : User) (bk : Booking),
      get_booking_with_validation db booking_id user = some bk →
      (bu.check_in_date.isSome || bu.check_out_date.isSome) = true →
      bu.check_out_date.getD bk.check_out_date ≤ bu.check_in_date.getD bk.check_in_date →
      update_booking db booking_id bu user =
        .error (.validationFailed "Check-out date must be after check-in date")) := by
  constructor
  · intro db bd user new_id p g hp hap hg hag hd
    have hdec : decide (bd.check_out_date ≤ bd.check_in_date) = true := decide_eq_true hd
    unfold create_booking
    simp only [hp, hap, hg, hag, Bool.not_true, Bool.false_eq_true, if_false, hdec, if_true]
  · intro db booking_id bu user bk hbk hsupp hd
    have hdec : decide (bu.check_out_date.getD bk.check_out_date ≤
        bu.check_in_date.getD bk.check_in_date) = true := decide_eq_true hd
    unfold update_booking
    simp only [hbk, hsupp, if_true, hdec]

theorem booking_date_order_validation_witness :
    create_booking egDb egEmptyStayCreate egUser "nb2" =
      .error (.validationFailed "Check-out date must be after check-in date") ∧
    update_booking egDb "b1" egEmptyStayUpdate egUser =
      .error (.validationFailed "Check-out date must be after check-in date") :=
  ⟨booking_date_order_validation.1 egDb egEmptyStayCreate egUser "nb2" egProperty egGuest
      rfl rfl rfl rfl (by decide),
   booking_date_order_validation.2 egDb "b1" egEmptyStayUpdate egUser egBooking
      rfl rfl (by decide)⟩

/-- C5 counterexample: guest `g1` has 2 referencing bookings, yet
`delete_guest` called by a user of another tenant does not raise the
claimed `DependencyConflict` — it returns `False` with the store
unchanged, because the access check runs before the dependency count. The
claim as stated (quantifying over every guest with dependents, with no
access condition) is therefore false at this input. -/
theorem delete_guest_counterexample :
    0 < (egDb.bookings.filter (fun b => sqlEq b.guest_id (some "g1"))).length ∧
    delete_guest egDb "g1" egOutsider = .ok (egDb, false) := by
  decide

/-- C5 (amended): for every guest that the caller may access, a positive
count n of referencing bookings makes `delete_guest` fail with the
`DependencyConflict` naming "n booking(s)" (an error, so all state is
unchanged), and a zero count makes it remove the guest and succeed — so
deleting the n bookings first and then the guest succeeds. -/
theorem delete_guest_dependency_guard :
    (∀ (db : DB) (guest_id : String) (user : User) (g : Guest),
      get_guest_with_validation db guest_id user = some g →
      0 < (db.bookings.filter (fun b => sqlEq b.guest_id (some guest_id))).length →
      delete_guest db guest_id user =
        .error (.dependencyConflict
          ("guest \x27" ++ g.first_name ++ " " ++ g.last_name ++ "\x27")
          (toString (db.bookings.filter (fun b => sqlEq b.guest_id (some guest_id))).length ++
            " booking(s)")))
    ∧
    (∀ (db : DB) (guest_id : String) (user : User) (g : Guest),
      get_guest_with_validation db guest_id user = some g →
      (db.bookings.filter (fun b => sqlEq b.guest_id (some guest_id))).length = 0 →
      delete_guest db guest_id user =
        .ok ({ db with guests := db.guests.filter (fun x => !(x.id == guest_id)) }, true)) := by
  constructor
  · intro db guest_id user g hg hn
    unfold delete_guest
    simp only [hg]
    rw [if_pos hn]
  · intro db guest_id user g hg h0
    unfold delete_guest
    simp only [hg]
    rw [if_neg (by simp [h0])]

theorem delete_guest_dependency_guard_witness :
    delete_guest egDb "g1" egUser =
      .error (.dependencyConflict "guest \x27Amal Karam\x27" "2 booking(s)") ∧
    delete_guest egDbNoBookings "g1" egUser =
      .ok ({ egDbNoBookings with guests := [] }, true) :=
  ⟨(delete_guest_dependency_guard.1 egDb "g1" egUser egGuest rfl (by decide)).trans (by decide),
   (delete_guest_dependency_guard.2 egDbNoBookings "g1" egUser egGuest rfl
      (by decide)).trans (by decide)⟩

/-- C8: for every successful property or guest creation the stored row
tenant id equals the creating user resolved tenant id — the payload
carries no tenant id at all (see `PropertyCreate` / `GuestCreate`), so a
caller-supplied tenant can never be trusted — while a super admin (whose
resolved tenant target is always absent here) and a tenantless
non-super-admin are both rejected with a 400 bad-request error and no row
is created. -/
theorem creation_forces_caller_tenant :
    (∀ (db : DB) (pd : PropertyCreate) (user : User) (new_id : String),
      (get_user_tenant_id user = none →
        ∃ d, create_property db pd user new_id = .error (.badRequest d)) ∧
      (∀ tid, get_user_tenant_id user = some tid →
        create_property db pd user new_id =
          .ok ({ db with properties := db.properties ++ [newPropertyRow pd tid new_id] },
            newPropertyRow pd tid new_id) ∧
        (newPropertyRow pd tid new_id).tenant_id = tid))
    ∧
    (∀ (db : DB) (gd : GuestCreate) (user : User) (new_id : String),
      (get_user_tenant_id user = none →
        ∃ d, create_guest db gd user new_id = .error (.badRequest d)) ∧
      (∀ tid, get_user_tenant_id user = some tid →
        create_guest db gd user new_id =
          .ok ({ db with guests := db.guests ++ [newGuestRow gd tid new_id] },
            newGuestRow gd tid new_id) ∧
        (newGuestRow gd tid new_id).tenant_id = tid)) := by
  constructor
  · intro db pd user new_id
    constructor
    · intro h0
      by_cases hr : user.role = UserRole.super_admin
      · refine ⟨"Super admin must use tenant-specific endpoints to create properties", ?_⟩
        unfold create_property
        simp only [h0]
        rw [if_pos hr]
      · refine ⟨"User must be associated with a tenant to create properties", ?_⟩
        unfold create_property
        simp only [h0]
        rw [if_neg hr]
    · intro tid htid
      refine ⟨?_, rfl⟩
      unfold create_property
      simp only [htid]
  · intro db gd user new_id
    constructor
    · intro h0
      by_cases hr : user.role = UserRole.super_admin
      · refine ⟨"Super admin must use tenant-specific endpoints to create guests", ?_⟩
        unfold create_guest
        simp only [h0]
        rw [if_pos hr]
      · refine ⟨"User must be associated with a tenant to create guests", ?_⟩
        unfold create_guest
        simp only [h0]
        rw [if_neg hr]
    · intro tid htid
      refine ⟨?_, rfl⟩
      unfold create_guest
      simp only [htid]

theorem creation_forces_caller_tenant_witness :
    (∃ d, create_property egDb egPropertyCreate egSuperAdmin "np1" = .error (.badRequest d)) ∧
    (∃ d, create_guest egDb egGuestCreate egTenantless "ng1" = .error (.badRequest d)) ∧
    create_property egDb egPropertyCreate egUser "np1" =
      .ok ({ egDb with properties := egDb.properties ++ [newPropertyRow egPropertyCreate "t1" "np1"] },
        newPropertyRow egPropertyCreate "t1" "np1") ∧
    create_guest egDb egGuestCreate egUser "ng1" =
      .ok ({ egDb with guests := egDb.guests ++ [newGuestRow egGuestCreate "t1" "ng1"] },
        newGuestRow egGuestCreate "t1" "ng1") :=
  ⟨(creation_forces_caller_tenant.1 egDb egPropertyCreate egSuperAdmin "np1").1 rfl,
   (creation_forces_caller_tenant.2 egDb egGuestCreate egTenantless "ng1").1 rfl,
   ((creation_forces_caller_tenant.1 egDb egPropertyCreate egUser "np1").2 "t1" rfl).1,
   ((creation_forces_caller_tenant.2 egDb egGuestCreate egUser "ng1").2 "t1" rfl).1⟩

/-- C7 counterexample: for host `a.b.darmanager.net` with an active tenant
of subdomain `a` in the store, the claim wording (strip the base-domain
suffix and take the LEFTMOST LABEL, here `a`) demands that the resolver
return that tenant — `spec_resolve` does — but the translated code uses
the whole prefix `a.b` as the candidate and returns `none`. -/
theorem tenant_resolver_counterexample :
    spec_resolve { x_tenant_subdomain := none, host := "a.b.darmanager.net" } c7Db =
      some c7Tenant ∧
    get_tenant_from_subdomain { x_tenant_subdomain := none, host := "a.b.darmanager.net" } c7Db =
      none := by
  decide

/-- C7 (amended): the resolver uses the explicit subdomain hint when
present (nonempty) and otherwise derives the candidate from the host —
bare localhost hosts yield no candidate, and a `.localhost` or base-domain
suffix occurrence splits the host, the whole prefix before it (the
leftmost label only when the subdomain is a single label) being the
candidate; the result is the lookup of an active tenant by that candidate,
and a tenant is returned exactly when an active tenant with that subdomain
exists — inactive or unknown subdomains, and hosts with no candidate,
resolve to none. -/
theorem tenant_resolver_amended :
    ∀ (req : RequestMeta) (db : DB),
      get_tenant_from_subdomain req db =
        (match resolve_candidate req with
         | none => none
         | some s => db.tenants.find? (fun t => t.subdomain == s && t.is_active)) ∧
      (get_tenant_from_subdomain req db).isSome =
        (match resolve_candidate req with
         | none => false
         | some s => db.tenants.any (fun t => t.subdomain == s && t.is_active)) := by
  intro req db
  have hmain : get_tenant_from_subdomain req db =
      (match resolve_candidate req with
       | none => none
       | some s => db.tenants.find? (fun t => t.subdomain == s && t.is_active)) := by
    unfold get_tenant_from_subdomain resolve_candidate
    cases hh : req.x_tenant_subdomain with
    | none =>
      simp only [Option.getD_none]
      cases hl : substrBefore ".localhost" req.host with
      | some pre =>
        by_cases hp : pre = "" <;>
          by_cases hb : (decide (req.host = "localhost") || decide (req.host = "localhost:3000") ||
              decide (req.host = "localhost:80")) = true <;>
            simp [hl, hp, hb]
      | none =>
        cases hd : substrBefore ".darmanager.net" req.host with
        | some pre =>
          by_cases hp : pre = "" <;>
            by_cases hb : (decide (req.host = "localhost") || decide (req.host = "localhost:3000") ||
                decide (req.host = "localhost:80")) = true <;>
              simp [hl, hd, hp, hb]
        | none =>
          by_cases hb : (decide (req.host = "localhost") || decide (req.host = "localhost:3000") ||
              decide (req.host = "localhost:80")) = true <;>
            simp [hl, hd, hb]
    | some s =>
      by_cases hs : s = ""
      · subst hs
        simp only [Option.getD_some]
        cases hl : substrBefore ".localhost" req.host with
        | some pre =>
          by_cases hp : pre = "" <;>
            by_cases hb : (decide (req.host = "localhost") || decide (req.host = "localhost:3000") ||
                decide (req.host = "localhost:80")) = true <;>
              simp [hl, hp, hb]
        | none =>
          cases hd : substrBefore ".darmanager.net" req.host with
          | some pre =>
            by_cases hp : pre = "" <;>
              by_cases hb : (decide (req.host = "localhost") || decide (req.host = "localhost:3000") ||
                  decide (req.host = "localhost:80")) = true <;>
                simp [hl, hd, hp, hb]
          | none =>
            by_cases hb : (decide (req.host = "localhost") || decide (req.host = "localhost:3000") ||
                decide (req.host = "localhost:80")) = true <;>
              simp [hl, hd, hb]
      · simp [Option.getD_some, hs]
  refine ⟨hmain, ?_⟩
  rw [hmain]
  cases hc : resolve_candidate req with
  | none => rfl
  | some s =>
    show (db.tenants.find? (fun t => t.subdomain == s && t.is_active)).isSome =
      db.tenants.any (fun t => t.subdomain == s && t.is_active)
    rw [any_eq_find_q_isSome]

theorem length_filter_le_one_of_key {α : Type} (key : α → String) (l : List α)
    (hnd : (l.map key).Nodup) (pred : α → Bool) (k : String)
    (hk : ∀ a, pred a = true → key a = k) :
    (l.filter pred).length ≤ 1 := by
  induction l with
  | nil => simp
  | cons a t ih =>
    rw [List.map_cons, List.nodup_cons] at hnd
    obtain ⟨hna, hnd2⟩ := hnd
    rw [List.filter_cons]
    by_cases hpa : pred a = true
    · rw [if_pos hpa]
      have ht : t.filter pred = [] := by
        rw [List.filter_eq_nil_iff]
        intro x hx hpx
        apply hna
        have hkey : key a = key x := (hk a hpa).trans (hk x hpx).symm
        rw [hkey]
        exact List.mem_map_of_mem key hx
      rw [ht]
      simp
    · rw [if_neg hpa]
      exact ih hnd2

theorem filter_key_length_eq_any {α : Type} (key : α → String) (l : List α)
    (hnd : (l.map key).Nodup) (pred : α → Bool) (k : String)
    (hk : ∀ a, pred a = true → key a = k) :
    (l.filter pred).length = if l.any pred then 1 else 0 := by
  cases ha : l.any pred
  · rw [if_neg (by simp)]
    rw [List.length_eq_zero, List.filter_eq_nil_iff]
    intro x hx hpx
    exact (List.any_eq_false.mp ha x hx) hpx
  · rw [if_pos rfl]
    have hle := length_filter_le_one_of_key key l hnd pred k hk
    obtain ⟨x, hx, hpx⟩ := List.any_eq_true.mp ha
    have hmem : x ∈ l.filter pred := List.mem_filter.mpr ⟨hx, hpx⟩
    have hpos : 0 < (l.filter pred).length := List.length_pos.mpr (List.ne_nil_of_mem hmem)
    omega

theorem join_count_eq_filter_length (bs : List Booking) (props : List Property) (tid : String)
    (hnd : (props.map Property.id).Nodup) :
    (bs.map (fun b => (props.filter (fun p =>
        sqlEq b.property_id (some p.id) && p.tenant_id == tid)).length)).sum
      = (bs.filter (fun b => props.any (fun p =>
          sqlEq b.property_id (some p.id) && p.tenant_id == tid))).length := by
  induction bs with
  | nil => rfl
  | cons b t ih =>
    rw [List.map_cons, List.sum_cons, List.filter_cons, ih]
    have hper : (props.filter (fun p =>
        sqlEq b.property_id (some p.id) && p.tenant_id == tid)).length
        = if props.any (fun p => sqlEq b.property_id (some p.id) && p.tenant_id == tid)
          then 1 else 0 := by
      apply filter_key_length_eq_any Property.id props hnd _ (b.property_id.getD "")
      intro a hpa
      simp only [Bool.and_eq_true] at hpa
      obtain ⟨h1, -⟩ := hpa
      cases hbp : b.property_id with
      | none =>
        rw [hbp] at h1
        exact absurd h1 (by simp [sqlEq])
      | some v =>
        rw [hbp] at h1
        simp only [sqlEq, beq_iff_eq] at h1
        simp only [Option.getD_some]
        exact h1.symm
    rw [hper]
    cases hany : props.any (fun p => sqlEq b.property_id (some p.id) && p.tenant_id == tid) with
    | true =>
      simp only [hany, reduceIte, List.length_cons]
      omega
    | false =>
      simp only [hany, Bool.false_eq_true, reduceIte]
      omega

/-- C4: deleting an existing tenant is never refused for dependents: with
the property primary keys distinct (they are a primary key), the
operation succeeds in one step, the store afterwards holds none of the
rows owned by the tenant — its users, properties and guests, and the
bookings of the owned properties (see `cascadeDeleteTenantRows`) — and
the returned audit counts equal the exact numbers of such rows owned at
deletion time. -/
theorem delete_tenant_cascades_with_counts :
    ∀ (db : DB) (tenant_id : String) (t : Tenant),
      db.tenants.find? (fun x => x.id == tenant_id) = some t →
      (db.properties.map Property.id).Nodup →
      delete_tenant db tenant_id =
        .ok (cascadeDeleteTenantRows db tenant_id,
          { users := (db.users.filter (fun u => sqlEq u.tenant_id (some tenant_id))).length
            properties := (db.properties.filter (fun p => p.tenant_id == tenant_id)).length
            guests := (db.guests.filter (fun g => g.tenant_id == tenant_id)).length
            bookings := (db.bookings.filter (fun b => db.properties.any (fun p =>
              sqlEq b.property_id (some p.id) && p.tenant_id == tenant_id))).length }) := by
  intro db tenant_id t hfind hnd
  have hbc : bookingJoinCount db tenant_id = (db.bookings.filter (fun b =>
      db.properties.any (fun p =>
        sqlEq b.property_id (some p.id) && p.tenant_id == tenant_id))).length := by
    unfold bookingJoinCount
    exact join_count_eq_filter_length db.bookings db.properties tenant_id hnd
  unfold delete_tenant
  simp only [hfind, hbc]

theorem delete_tenant_cascades_with_counts_witness :
    delete_tenant c4Db "T" =
      .ok (cascadeDeleteTenantRows c4Db "T",
        { users := 2, properties := 1, guests := 4, bookings := 10 }) :=
  (delete_tenant_cascades_with_counts c4Db "T" c4Tenant rfl (by decide)).trans (by decide)
